import Mathlib

/-!
Verification of the financial-calculation core of the repository
(mortgage amortization, pension projection, purchasing power).

The TypeScript source is embedded shallowly:
* JS floating-point numbers are modelled as exact rationals (`ℚ`); the one
  fractional-exponent power (`Math.pow(x, 1/yearDiff)`) is modelled over `ℝ`
  with real exponentiation.
* Loop counters and whole-year/whole-month counts are modelled as `ℕ`
  (the form fields feeding them are whole numbers).
* `while` loops are modelled by structural recursion on the remaining
  iteration budget, which the source bounds explicitly (`month <
  originalTermMonths`, `year <= yearsToRetirement`, `year <= validEndYear`).
* A `throw` inside a `try` block (the source surfaces it as "no result")
  is modelled with `Except String`.
-/

namespace Mortgage

/-- `calculateMonthlyPayment(loanAmount, interestRate, loanTermYears)`:
`monthlyRate = interestRate / 100 / 12`, `numberOfPayments = loanTermYears * 12`;
returns `loanAmount / numberOfPayments` when `monthlyRate <= 0`, else the
annuity formula `loanAmount * (monthlyRate * (1+monthlyRate)^n) / ((1+monthlyRate)^n - 1)`. -/
def calculateMonthlyPayment (loanAmount interestRate : ℚ) (loanTermYears : ℕ) : ℚ :=
  let monthlyRate : ℚ := interestRate / 100 / 12
  let numberOfPayments : ℕ := loanTermYears * 12
  if monthlyRate ≤ 0 then
    loanAmount / numberOfPayments
  else
    loanAmount * (monthlyRate * (1 + monthlyRate) ^ numberOfPayments) /
      ((1 + monthlyRate) ^ numberOfPayments - 1)

/-- The `while (balance > 0 && month < originalTermMonths)` loop of
`calculateWithOverpayment`, by structural recursion on the remaining
months `fuel = originalTermMonths - month`.  Loop body, verbatim from the
source: accrue `interestThisMonth = balance * monthlyInterestRate` into
`totalInterest`; `principalThisMonth = regularPayment - interestThisMonth
+ overpayment`; subtract it from the balance; if the balance went negative,
add the (negated) excess to `totalInterest` and zero the balance. -/
def overpayLoop (monthlyInterestRate regularPayment overpayment : ℚ) :
    ℕ → ℚ → ℚ → ℕ → ℚ × ℕ
  | 0, _, totalInterest, month => (totalInterest, month)
  | fuel + 1, balance, totalInterest, month =>
    if 0 < balance then
      let interestThisMonth := balance * monthlyInterestRate
      let totalInterest1 := totalInterest + interestThisMonth
      let principalThisMonth := regularPayment - interestThisMonth + overpayment
      let balance1 := balance - principalThisMonth
      if balance1 < 0 then
        overpayLoop monthlyInterestRate regularPayment overpayment fuel
          0 (totalInterest1 + balance1 * (-1)) (month + 1)
      else
        overpayLoop monthlyInterestRate regularPayment overpayment fuel
          balance1 totalInterest1 (month + 1)
    else (totalInterest, month)

/-- `calculateWithOverpayment(loanAmount, monthlyInterestRate, regularPayment,
overpayment, originalTermMonths)`: runs the monthly loop from
`balance = loanAmount`, `month = 0`, `totalInterest = 0` and returns
`(totalInterest, months)`. -/
def calculateWithOverpayment (loanAmount monthlyInterestRate regularPayment overpayment : ℚ)
    (originalTermMonths : ℕ) : ℚ × ℕ :=
  overpayLoop monthlyInterestRate regularPayment overpayment originalTermMonths loanAmount 0 0

/-- `calculateMortgage`'s closed-form zero-overpayment total interest,
line 443 of the source: `principalAndInterest * numberOfPayments - loanAmount`. -/
def closedFormTotalInterest (loanAmount interestRate : ℚ) (loanTermYears : ℕ) : ℚ :=
  calculateMonthlyPayment loanAmount interestRate loanTermYears * (loanTermYears * 12 : ℕ) -
    loanAmount

/-- One loop iteration in the regular case: balance still positive and the
principal portion does not overshoot it. -/
lemma overpayLoop_step_pos (r p o : ℚ) (fuel : ℕ) (bal ti : ℚ) (m : ℕ)
    (h : 0 < bal) (h2 : ¬(bal - (p - bal * r + o) < 0)) :
    overpayLoop r p o (fuel + 1) bal ti m
      = overpayLoop r p o fuel (bal - (p - bal * r + o)) (ti + bal * r) (m + 1) := by
  simp only [overpayLoop, if_pos h, if_neg h2]

/-- One loop iteration in the overshoot case: the balance would go negative,
so it is clamped to 0 and the excess is added into `totalInterest`. -/
lemma overpayLoop_step_clamp (r p o : ℚ) (fuel : ℕ) (bal ti : ℚ) (m : ℕ)
    (h : 0 < bal) (h2 : bal - (p - bal * r + o) < 0) :
    overpayLoop r p o (fuel + 1) bal ti m
      = overpayLoop r p o fuel 0 (ti + bal * r + (bal - (p - bal * r + o)) * (-1)) (m + 1) := by
  simp only [overpayLoop, if_pos h, if_pos h2]

/-- The loop exits as soon as the balance is no longer positive. -/
lemma overpayLoop_step_done (r p o : ℚ) (fuel : ℕ) (bal ti : ℚ) (m : ℕ) (h : ¬ 0 < bal) :
    overpayLoop r p o (fuel + 1) bal ti m = (ti, m) := by
  simp only [overpayLoop, if_neg h]

end Mortgage

open Mortgage

/-- C2: `calculateMonthlyPayment` computes `P/n` at periodic rate 0 and the
annuity formula `P*r*(1+r)^n / ((1+r)^n - 1)` at periodic rate `r > 0`,
where `r = interestRate/100/12` and `n = loanTermYears*12`. -/
theorem claim_C2_payment_formula (P R : ℚ) (y : ℕ) (hP : 0 < P) (hy : 0 < y) :
    (R / 100 / 12 = 0 → calculateMonthlyPayment P R y = P / (y * 12 : ℕ)) ∧
    (0 < R / 100 / 12 →
      calculateMonthlyPayment P R y =
        P * ((R / 100 / 12) * (1 + R / 100 / 12) ^ (y * 12)) /
          ((1 + R / 100 / 12) ^ (y * 12) - 1)) := by
  constructor
  · intro h0
    simp only [calculateMonthlyPayment, h0]
    norm_num
  · intro hr
    simp only [calculateMonthlyPayment, if_neg (not_le.mpr hr)]

/-- Witness for C2 at `P = 1000`, `R = 6`, `y = 1`. -/
theorem claim_C2_payment_formula_witness :
    (0 : ℚ) < 1000 ∧ 0 < 1 ∧
      ((6 : ℚ) / 100 / 12 = 0 → calculateMonthlyPayment 1000 6 1 = 1000 / ((1 * 12 : ℕ) : ℚ)) ∧
      (0 < (6 : ℚ) / 100 / 12 →
        calculateMonthlyPayment 1000 6 1 =
          1000 * (((6 : ℚ) / 100 / 12) * (1 + (6 : ℚ) / 100 / 12) ^ (1 * 12)) /
            ((1 + (6 : ℚ) / 100 / 12) ^ (1 * 12) - 1)) :=
  ⟨by norm_num, by norm_num, claim_C2_payment_formula 1000 6 1 (by norm_num) (by norm_num)⟩

/-- C1 (code evaluation at the failing input): at loan amount 600, monthly
rate 0, scheduled payment `calculateMonthlyPayment 600 0 1 = 50`, overpayment
40 and a 12-month cap, month 7 overshoots the remaining balance 60 by 30, and
the code reports total interest 30 — although the sum over all periods of
(balance at start of period) × (periodic rate) is 0 at rate 0.  The final
`if (balance < 0) totalInterest += balance * -1` adds the overshoot to the
reported interest, contradicting the claim. -/
theorem claim_C1_overshoot_added_to_interest :
    calculateWithOverpayment 600 0 (calculateMonthlyPayment 600 0 1) 40 12 = (30, 7) ∧
    (30 : ℚ) ≠ 0 := by
  constructor
  · have hp : calculateMonthlyPayment 600 0 1 = 50 := by
      norm_num [calculateMonthlyPayment]
    rw [calculateWithOverpayment, hp]
    norm_num [overpayLoop_step_pos, overpayLoop_step_clamp, overpayLoop_step_done]
  · norm_num

/-- C3 (code evaluation at the failing input): at loan amount 1000, annual
rate 0 (monthly rate 0), scheduled payment `calculateMonthlyPayment 1000 0 1
= 1000/12`, overpayment 50 and a 12-month cap, the zero-overpayment total
interest (`payment × n − P`) is 0, yet the simulator reports total interest
200/3 > 0 (the final-month overshoot), violating "total interest with
overpayment ≤ zero-overpayment total interest".  (Termination in ≤ n periods
does hold: the run stops after 8 ≤ 12 months.) -/
theorem claim_C3_overpayment_interest_exceeds_baseline :
    calculateWithOverpayment 1000 0 (calculateMonthlyPayment 1000 0 1) 50 12 = (200 / 3, 8) ∧
    closedFormTotalInterest 1000 0 1 = 0 ∧ (0 : ℚ) < 200 / 3 := by
  have hp : calculateMonthlyPayment 1000 0 1 = 250 / 3 := by
    norm_num [calculateMonthlyPayment]
  refine ⟨?_, ?_, by norm_num⟩
  · rw [calculateWithOverpayment, hp]
    norm_num [overpayLoop_step_pos, overpayLoop_step_clamp, overpayLoop_step_done]
  · rw [closedFormTotalInterest, hp]
    norm_num

namespace Mortgage

lemma calculateMonthlyPayment_of_rate_nonpos (P R : ℚ) (y : ℕ) (h : R / 100 / 12 ≤ 0) :
    calculateMonthlyPayment P R y = P / ((y * 12 : ℕ) : ℚ) := by
  simp only [calculateMonthlyPayment, if_pos h]

lemma calculateMonthlyPayment_of_rate_pos (P R : ℚ) (y : ℕ) (h : 0 < R / 100 / 12) :
    calculateMonthlyPayment P R y =
      P * ((R / 100 / 12) * (1 + R / 100 / 12) ^ (y * 12)) /
        ((1 + R / 100 / 12) ^ (y * 12) - 1) := by
  simp only [calculateMonthlyPayment, if_neg (not_le.mpr h)]

/-- Exact run of the overpayment loop along a balance trajectory `b` that
starts positive, satisfies the per-month recurrence, and hits exactly 0 at
month `n`: the loop runs all `n` months and accumulates total interest
`n * payment - b 0`. -/
lemma overpayLoop_run (r p : ℚ) (n : ℕ) (b : ℕ → ℚ)
    (hrec : ∀ j < n, b (j + 1) = b j * (1 + r) - p)
    (hpos : ∀ j < n, 0 < b j)
    (hend : b n = 0) :
    ∀ f j, j + f = n →
      overpayLoop r p 0 f (b j) ((j : ℚ) * p - (b 0 - b j)) j = ((n : ℚ) * p - b 0, n) := by
  intro f
  induction f with
  | zero =>
    intro j hj
    have hjn : j = n := by omega
    subst hjn
    simp only [overpayLoop, hend, Prod.mk.injEq]
    exact ⟨by ring, trivial⟩
  | succ f ih =>
    intro j hj
    have hjn : j < n := by omega
    have hb : 0 < b j := hpos j hjn
    have hnext : b j - (p - b j * r + 0) = b (j + 1) := by
      rw [hrec j hjn]; ring
    have hge : ¬ (b j - (p - b j * r + 0) < 0) := by
      rw [hnext]
      rcases Nat.lt_or_ge (j + 1) n with h1 | h1
      · exact not_lt.mpr (le_of_lt (hpos (j + 1) h1))
      · have h2 : j + 1 = n := by omega
        rw [h2, hend]
        exact lt_irrefl 0
    rw [overpayLoop_step_pos r p 0 f (b j) _ j hb hge, hnext]
    have hti : (j : ℚ) * p - (b 0 - b j) + b j * r = ((j + 1 : ℕ) : ℚ) * p - (b 0 - b (j + 1)) := by
      rw [hrec j hjn]; push_cast; ring
    rw [hti]
    exact ih (j + 1) (by omega)

/-- `overpayLoop_run` started at month 0: the loop on a full trajectory
returns `(n * payment - initial balance, n)`. -/
lemma overpayLoop_run0 (r p : ℚ) (n : ℕ) (b : ℕ → ℚ)
    (hrec : ∀ j < n, b (j + 1) = b j * (1 + r) - p)
    (hpos : ∀ j < n, 0 < b j)
    (hend : b n = 0) :
    overpayLoop r p 0 n (b 0) 0 0 = ((n : ℚ) * p - b 0, n) := by
  have key := overpayLoop_run r p n b hrec hpos hend n 0 (by omega)
  have h0 : ((0 : ℕ) : ℚ) * p - (b 0 - b 0) = 0 := by push_cast; ring
  rw [h0] at key
  exact key

end Mortgage

/-- C4: with zero overpayment and the scheduled payment from
`calculateMonthlyPayment`, the simulator runs the full `n = 12*y` months and
its total interest is exactly the closed form `payment * n - P`. -/
theorem claim_C4_zero_overpayment_matches_closed_form (P R : ℚ) (y : ℕ)
    (hP : 0 < P) (hR : 0 ≤ R) (hy : 0 < y) :
    calculateWithOverpayment P (R / 100 / 12) (calculateMonthlyPayment P R y) 0 (y * 12)
      = (closedFormTotalInterest P R y, y * 12) := by
  have hn : y * 12 ≠ 0 := by omega
  have hnQ : (((y * 12 : ℕ)) : ℚ) ≠ 0 := Nat.cast_ne_zero.mpr hn
  have hnpos : (0 : ℚ) < ((y * 12 : ℕ) : ℚ) := by
    have := Nat.pos_of_ne_zero hn
    exact_mod_cast this
  rcases eq_or_lt_of_le hR with h0 | hRpos
  · -- zero rate: straight-line amortization
    have hr0 : R / 100 / 12 = 0 := by rw [← h0]; norm_num
    have hp : calculateMonthlyPayment P R y = P / ((y * 12 : ℕ) : ℚ) :=
      calculateMonthlyPayment_of_rate_nonpos P R y (by rw [hr0])
    have hmain := overpayLoop_run0 0 (P / ((y * 12 : ℕ) : ℚ)) (y * 12)
      (fun j => P - j * (P / ((y * 12 : ℕ) : ℚ)))
      (by intro j hj; push_cast; ring)
      (by
        intro j hj
        have hjQ : (j : ℚ) < ((y * 12 : ℕ) : ℚ) := by exact_mod_cast hj
        show 0 < P - (j : ℚ) * (P / ((y * 12 : ℕ) : ℚ))
        have hrw : P - (j : ℚ) * (P / ((y * 12 : ℕ) : ℚ))
            = P * ((((y * 12 : ℕ) : ℚ) - j) / ((y * 12 : ℕ) : ℚ)) := by
          field_simp; ring
        rw [hrw]
        have hfrac : (0 : ℚ) < (((y * 12 : ℕ) : ℚ) - j) / ((y * 12 : ℕ) : ℚ) :=
          div_pos (by linarith) hnpos
        positivity)
      (by field_simp)
    simp only [Nat.cast_zero, zero_mul, sub_zero] at hmain
    rw [calculateWithOverpayment, hp, hr0, hmain]
    simp only [Prod.mk.injEq]
    refine ⟨?_, trivial⟩
    rw [closedFormTotalInterest, hp]
    ring
  · -- positive rate: annuity trajectory
    have hx : 0 < R / 100 / 12 := by positivity
    have hx1 : (1 : ℚ) < 1 + R / 100 / 12 := by linarith
    have hD : (0 : ℚ) < (1 + R / 100 / 12) ^ (y * 12) - 1 :=
      sub_pos.mpr (one_lt_pow₀ hx1 hn)
    set x : ℚ := R / 100 / 12 with hx_def
    set D : ℚ := (1 + x) ^ (y * 12) - 1 with hD_def
    set p : ℚ := P * (x * (1 + x) ^ (y * 12)) / D with hp_def
    have hp : calculateMonthlyPayment P R y = p :=
      calculateMonthlyPayment_of_rate_pos P R y hx
    have hmain := overpayLoop_run0 x p (y * 12)
      (fun j => P * ((1 + x) ^ (y * 12) - (1 + x) ^ j) / D)
      (by
        intro j hj
        show P * ((1 + x) ^ (y * 12) - (1 + x) ^ (j + 1)) / D
          = P * ((1 + x) ^ (y * 12) - (1 + x) ^ j) / D * (1 + x) - p
        rw [hp_def]
        field_simp
        ring)
      (by
        intro j hj
        show 0 < P * ((1 + x) ^ (y * 12) - (1 + x) ^ j) / D
        have hlt : (1 + x) ^ j < (1 + x) ^ (y * 12) := pow_lt_pow_right₀ hx1 hj
        exact div_pos (mul_pos hP (sub_pos.mpr hlt)) hD)
      (by
        show P * ((1 + x) ^ (y * 12) - (1 + x) ^ (y * 12)) / D = 0
        simp)
    have hb0 : P * ((1 + x) ^ (y * 12) - (1 + x) ^ (0 : ℕ)) / D = P := by
      rw [pow_zero, ← hD_def, mul_div_assoc, div_self hD.ne', mul_one]
    simp only [] at hmain
    rw [hb0] at hmain
    rw [calculateWithOverpayment, hp, hmain]
    simp only [Prod.mk.injEq]
    refine ⟨?_, trivial⟩
    rw [closedFormTotalInterest, hp]
    ring

/-- Witness for C4 at `P = 1000`, `R = 6`, `y = 1`. -/
theorem claim_C4_zero_overpayment_matches_closed_form_witness :
    (0 : ℚ) < 1000 ∧ (0 : ℚ) ≤ 6 ∧ 0 < 1 ∧
      calculateWithOverpayment 1000 ((6 : ℚ) / 100 / 12) (calculateMonthlyPayment 1000 6 1) 0
          (1 * 12)
        = (closedFormTotalInterest 1000 6 1, 1 * 12) :=
  ⟨by norm_num, by norm_num, by norm_num,
    claim_C4_zero_overpayment_matches_closed_form 1000 6 1 (by norm_num) (by norm_num)
      (by norm_num)⟩

/-- The geometric-sum inequality behind the annuity bound: for a positive
periodic rate the discounted payment stream strictly undershoots `n` payments
at the final-period value. -/
lemma annuity_key (r : ℚ) (hr : 0 < r) (n : ℕ) (hn : n ≠ 0) :
    (1 + r) ^ n - 1 < r * ((1 + r) ^ n * n) := by
  have hx : (1 : ℚ) < 1 + r := by linarith
  have hgeom : (∑ i ∈ Finset.range n, (1 + r) ^ i) * (1 + r - 1) = (1 + r) ^ n - 1 :=
    geom_sum_mul (1 + r) n
  have hsum : (∑ i ∈ Finset.range n, (1 + r) ^ i) < n * (1 + r) ^ n := by
    calc (∑ i ∈ Finset.range n, (1 + r) ^ i)
        < ∑ _i ∈ Finset.range n, (1 + r) ^ n := by
          apply Finset.sum_lt_sum_of_nonempty
          · exact Finset.nonempty_range_iff.mpr hn
          · intro i hi
            exact pow_lt_pow_right₀ hx (Finset.mem_range.mp hi)
      _ = n * (1 + r) ^ n := by
          rw [Finset.sum_const, Finset.card_range, nsmul_eq_mul]
  have h1 : (1 + r) ^ n - 1 = (∑ i ∈ Finset.range n, (1 + r) ^ i) * r := by
    rw [← hgeom]; ring_nf
  rw [h1]
  calc (∑ i ∈ Finset.range n, (1 + r) ^ i) * r
      < (n * (1 + r) ^ n) * r := mul_lt_mul_of_pos_right hsum hr
    _ = r * ((1 + r) ^ n * n) := by ring

/-- C5: for `P > 0`, annual rate `R ≥ 0` and a positive term, the scheduled
payment times the number of payments covers the principal, with equality
exactly when the rate is zero. -/
theorem claim_C5_total_paid_covers_principal (P R : ℚ) (y : ℕ)
    (hP : 0 < P) (hR : 0 ≤ R) (hy : 0 < y) :
    P ≤ calculateMonthlyPayment P R y * ((y * 12 : ℕ) : ℚ) ∧
    (R = 0 → calculateMonthlyPayment P R y * ((y * 12 : ℕ) : ℚ) = P) ∧
    (0 < R → P < calculateMonthlyPayment P R y * ((y * 12 : ℕ) : ℚ)) := by
  have hn : y * 12 ≠ 0 := by omega
  have hnQ : (((y * 12 : ℕ)) : ℚ) ≠ 0 := Nat.cast_ne_zero.mpr hn
  have hzero : R = 0 → calculateMonthlyPayment P R y * ((y * 12 : ℕ) : ℚ) = P := by
    intro h0
    rw [calculateMonthlyPayment_of_rate_nonpos P R y (by rw [h0]; norm_num),
      div_mul_cancel₀ _ hnQ]
  have hstrict : 0 < R → P < calculateMonthlyPayment P R y * ((y * 12 : ℕ) : ℚ) := by
    intro hRpos
    have hx : 0 < R / 100 / 12 := by positivity
    have hx1 : (1 : ℚ) < 1 + R / 100 / 12 := by linarith
    have hD : (0 : ℚ) < (1 + R / 100 / 12) ^ (y * 12) - 1 :=
      sub_pos.mpr (one_lt_pow₀ hx1 hn)
    rw [calculateMonthlyPayment_of_rate_pos P R y hx]
    set x : ℚ := R / 100 / 12 with hx_def
    rw [div_mul_eq_mul_div, lt_div_iff hD]
    have key := annuity_key x hx (y * 12) hn
    calc P * ((1 + x) ^ (y * 12) - 1)
        < P * (x * ((1 + x) ^ (y * 12) * ((y * 12 : ℕ) : ℚ))) :=
          mul_lt_mul_of_pos_left key hP
      _ = P * (x * (1 + x) ^ (y * 12)) * ((y * 12 : ℕ) : ℚ) := by ring
  refine ⟨?_, hzero, hstrict⟩
  rcases eq_or_lt_of_le hR with h0 | h1
  · exact le_of_eq (hzero h0.symm).symm
  · exact le_of_lt (hstrict h1)

/-- Witness for C5 at `P = 1000`, `R = 6`, `y = 1`. -/
theorem claim_C5_total_paid_covers_principal_witness :
    (0 : ℚ) < 1000 ∧ (0 : ℚ) ≤ 6 ∧ 0 < 1 ∧
      ((1000 : ℚ) ≤ calculateMonthlyPayment 1000 6 1 * ((1 * 12 : ℕ) : ℚ) ∧
        ((6 : ℚ) = 0 → calculateMonthlyPayment 1000 6 1 * ((1 * 12 : ℕ) : ℚ) = 1000) ∧
        ((0 : ℚ) < 6 → 1000 < calculateMonthlyPayment 1000 6 1 * ((1 * 12 : ℕ) : ℚ))) :=
  ⟨by norm_num, by norm_num, by norm_num,
    claim_C5_total_paid_covers_principal 1000 6 1 (by norm_num) (by norm_num) (by norm_num)⟩

namespace PensionProjection

/-- The numeric form fields of the pension projection page (`formData`). -/
structure PensionParams where
  currentAge : ℤ
  retirementAge : ℤ
  currentPension : ℚ
  monthlyContribution : ℚ
  employerContribution : ℚ
  stocksAllocation : ℚ
  bondsAllocation : ℚ
  cashAllocation : ℚ
  stocksReturn : ℚ
  bondsReturn : ℚ
  cashReturn : ℚ
  inflationRate : ℚ

/-- `weightedReturn`: allocation-weighted average of the per-asset-class
returns (all in percent). -/
def weightedReturn (p : PensionParams) : ℚ :=
  p.stocksAllocation / 100 * p.stocksReturn +
    p.bondsAllocation / 100 * p.bondsReturn +
    p.cashAllocation / 100 * p.cashReturn

/-- `annualContribution = monthlyContribution * 12`. -/
def annualContribution (p : PensionParams) : ℚ :=
  p.monthlyContribution * 12

/-- `annualEmployerContribution = employerContribution * 12`. -/
def annualEmployerContribution (p : PensionParams) : ℚ :=
  p.employerContribution * 12

/-- `pensionValue` at the end of loop iteration `year = k`: untouched at
`k = 0`, and for `k > 0` incremented by `yearGrowth + annualContribution +
annualEmployerContribution` where `yearGrowth = pensionValue *
(weightedReturn / 100)`. -/
def pensionValueAt (p : PensionParams) : ℕ → ℚ
  | 0 => p.currentPension
  | k + 1 =>
    pensionValueAt p k +
      (pensionValueAt p k * (weightedReturn p / 100) +
        annualContribution p + annualEmployerContribution p)

/-- `yearGrowth` in loop iteration `year = k` (0 in year 0). -/
def yearGrowthAt (p : PensionParams) : ℕ → ℚ
  | 0 => 0
  | k + 1 => pensionValueAt p k * (weightedReturn p / 100)

/-- `totalContributions` after iteration `k`; initialized to `currentPension`. -/
def totalContributionsAt (p : PensionParams) : ℕ → ℚ
  | 0 => p.currentPension
  | k + 1 => totalContributionsAt p k + annualContribution p

/-- `totalEmployerContributions` after iteration `k`. -/
def totalEmployerContributionsAt (p : PensionParams) : ℕ → ℚ
  | 0 => 0
  | k + 1 => totalEmployerContributionsAt p k + annualEmployerContribution p

/-- `totalGrowth` after iteration `k`. -/
def totalGrowthAt (p : PensionParams) : ℕ → ℚ
  | 0 => 0
  | k + 1 => totalGrowthAt p k + yearGrowthAt p (k + 1)

/-- One row pushed onto `yearlyBreakdown`. -/
structure YearEntry where
  age : ℤ
  year : ℤ
  pensionValue : ℚ
  realPensionValue : ℚ
  annualContribution : ℚ
  annualEmployerContribution : ℚ
  annualGrowth : ℚ
  stocks : ℚ
  bonds : ℚ
  cash : ℚ

/-- The row pushed in loop iteration `year = k` (`currentYear` is the
calendar year `new Date().getFullYear()`, passed in as a parameter). -/
def entryAt (p : PensionParams) (currentYear : ℤ) (k : ℕ) : YearEntry :=
  { age := p.currentAge + k
    year := currentYear + k
    pensionValue := pensionValueAt p k
    realPensionValue := pensionValueAt p k / (1 + p.inflationRate / 100) ^ k
    annualContribution := if 0 < k then annualContribution p else 0
    annualEmployerContribution := if 0 < k then annualEmployerContribution p else 0
    annualGrowth := yearGrowthAt p k
    stocks := pensionValueAt p k * (p.stocksAllocation / 100)
    bonds := pensionValueAt p k * (p.bondsAllocation / 100)
    cash := pensionValueAt p k * (p.cashAllocation / 100) }

/-- The record passed to `setResults`. -/
structure ProjectionResult where
  finalPensionNominal : ℚ
  finalPensionReal : ℚ
  totalContributions : ℚ
  totalEmployerContributions : ℚ
  totalInvestmentGrowth : ℚ
  yearlyBreakdown : List YearEntry

/-- The projection built by the `for (year = 0; year <= yearsToRetirement;
year++)` loop, for `yearsToRetirement > 0`. -/
def projectionResult (p : PensionParams) (currentYear : ℤ) : ProjectionResult :=
  let N : ℕ := (p.retirementAge - p.currentAge).toNat
  { finalPensionNominal := pensionValueAt p N
    finalPensionReal := (entryAt p currentYear N).realPensionValue
    totalContributions := totalContributionsAt p N
    totalEmployerContributions := totalEmployerContributionsAt p N
    totalInvestmentGrowth := totalGrowthAt p N
    yearlyBreakdown := (List.range (N + 1)).map (entryAt p currentYear) }

/-- `calculateProjection`: throws (caught by the page, which then shows no
result) when `yearsToRetirement = retirementAge - currentAge <= 0`, else
produces the projection. -/
def calculateProjection (p : PensionParams) (currentYear : ℤ) :
    Except String ProjectionResult :=
  if p.retirementAge - p.currentAge ≤ 0 then
    Except.error "Retirement age must be greater than current age"
  else
    Except.ok (projectionResult p currentYear)

/-- The `useEffect` wrapper: if the three allocation percentages do not sum
to exactly 100 an allocation error is surfaced and `calculateProjection` is
never called; otherwise the projection runs. -/
def pensionProjection (p : PensionParams) (currentYear : ℤ) :
    Except String ProjectionResult :=
  if p.stocksAllocation + p.bondsAllocation + p.cashAllocation ≠ 100 then
    Except.error "Asset allocation must total 100%"
  else
    calculateProjection p currentYear

/-- The `k`-th row of the yearly breakdown is the row pushed in iteration `k`. -/
lemma yearlyBreakdown_get (p : PensionParams) (currentYear : ℤ) (k : ℕ)
    (hk : k < (projectionResult p currentYear).yearlyBreakdown.length) :
    (projectionResult p currentYear).yearlyBreakdown.get ⟨k, hk⟩ = entryAt p currentYear k := by
  simp [projectionResult]

/-- The yearly breakdown has `yearsToRetirement + 1` rows. -/
lemma yearlyBreakdown_length (p : PensionParams) (currentYear : ℤ) :
    (projectionResult p currentYear).yearlyBreakdown.length
      = (p.retirementAge - p.currentAge).toNat + 1 := by
  simp [projectionResult]

end PensionProjection

open PensionProjection

/-- C6: per-year algorithm of the projector.  Year 0 of the breakdown is the
starting balance with no growth or contribution; for `k > 0` the growth is
the previous balance times the blended return, the new balance adds growth
plus both annual contributions, and the real value divides the nominal
balance by `(1 + inflationRate/100)^k`. -/
theorem claim_C6_projector_per_year_algorithm (p : PensionParams) (cy : ℤ)
    (h : p.currentAge < p.retirementAge) :
    calculateProjection p cy = Except.ok (projectionResult p cy) ∧
    (∀ hk : 0 < (projectionResult p cy).yearlyBreakdown.length,
      ((projectionResult p cy).yearlyBreakdown.get ⟨0, hk⟩).pensionValue = p.currentPension ∧
      ((projectionResult p cy).yearlyBreakdown.get ⟨0, hk⟩).annualGrowth = 0 ∧
      ((projectionResult p cy).yearlyBreakdown.get ⟨0, hk⟩).annualContribution = 0 ∧
      ((projectionResult p cy).yearlyBreakdown.get ⟨0, hk⟩).annualEmployerContribution = 0) ∧
    (∀ k, ∀ hk : k + 1 < (projectionResult p cy).yearlyBreakdown.length,
      ((projectionResult p cy).yearlyBreakdown.get ⟨k + 1, hk⟩).annualGrowth
        = ((projectionResult p cy).yearlyBreakdown.get
            ⟨k, Nat.lt_of_succ_lt hk⟩).pensionValue * (weightedReturn p / 100) ∧
      ((projectionResult p cy).yearlyBreakdown.get ⟨k + 1, hk⟩).pensionValue
        = ((projectionResult p cy).yearlyBreakdown.get
            ⟨k, Nat.lt_of_succ_lt hk⟩).pensionValue
          + ((projectionResult p cy).yearlyBreakdown.get ⟨k + 1, hk⟩).annualGrowth
          + ((projectionResult p cy).yearlyBreakdown.get ⟨k + 1, hk⟩).annualContribution
          + ((projectionResult p cy).yearlyBreakdown.get
              ⟨k + 1, hk⟩).annualEmployerContribution ∧
      ((projectionResult p cy).yearlyBreakdown.get ⟨k + 1, hk⟩).realPensionValue
        = ((projectionResult p cy).yearlyBreakdown.get ⟨k + 1, hk⟩).pensionValue
            / (1 + p.inflationRate / 100) ^ (k + 1)) := by
  refine ⟨?_, ?_, ?_⟩
  · rw [calculateProjection, if_neg (by omega)]
  · intro hk
    rw [yearlyBreakdown_get]
    simp [entryAt, pensionValueAt, yearGrowthAt]
  · intro k hk
    rw [yearlyBreakdown_get, yearlyBreakdown_get]
    refine ⟨rfl, ?_, rfl⟩
    simp only [entryAt, pensionValueAt, yearGrowthAt, Nat.succ_ne_zero,
      if_pos (Nat.succ_pos k)]
    ring

/-- Witness for C6 on a concrete parameter record. -/
def sampleParams : PensionParams :=
  { currentAge := 30
    retirementAge := 32
    currentPension := 10000
    monthlyContribution := 100
    employerContribution := 50
    stocksAllocation := 70
    bondsAllocation := 20
    cashAllocation := 10
    stocksReturn := 7
    bondsReturn := 3
    cashReturn := 3 / 2
    inflationRate := 2 }

/-- Witness for C6 at `sampleParams` and calendar year 2025. -/
theorem claim_C6_projector_per_year_algorithm_witness :
    sampleParams.currentAge < sampleParams.retirementAge ∧
    (calculateProjection sampleParams 2025
        = Except.ok (projectionResult sampleParams 2025) ∧
      (∀ hk : 0 < (projectionResult sampleParams 2025).yearlyBreakdown.length,
        ((projectionResult sampleParams 2025).yearlyBreakdown.get ⟨0, hk⟩).pensionValue
          = sampleParams.currentPension ∧
        ((projectionResult sampleParams 2025).yearlyBreakdown.get ⟨0, hk⟩).annualGrowth = 0 ∧
        ((projectionResult sampleParams 2025).yearlyBreakdown.get
            ⟨0, hk⟩).annualContribution = 0 ∧
        ((projectionResult sampleParams 2025).yearlyBreakdown.get
            ⟨0, hk⟩).annualEmployerContribution = 0) ∧
      (∀ k, ∀ hk : k + 1 < (projectionResult sampleParams 2025).yearlyBreakdown.length,
        ((projectionResult sampleParams 2025).yearlyBreakdown.get ⟨k + 1, hk⟩).annualGrowth
          = ((projectionResult sampleParams 2025).yearlyBreakdown.get
              ⟨k, Nat.lt_of_succ_lt hk⟩).pensionValue * (weightedReturn sampleParams / 100) ∧
        ((projectionResult sampleParams 2025).yearlyBreakdown.get ⟨k + 1, hk⟩).pensionValue
          = ((projectionResult sampleParams 2025).yearlyBreakdown.get
              ⟨k, Nat.lt_of_succ_lt hk⟩).pensionValue
            + ((projectionResult sampleParams 2025).yearlyBreakdown.get
                ⟨k + 1, hk⟩).annualGrowth
            + ((projectionResult sampleParams 2025).yearlyBreakdown.get
                ⟨k + 1, hk⟩).annualContribution
            + ((projectionResult sampleParams 2025).yearlyBreakdown.get
                ⟨k + 1, hk⟩).annualEmployerContribution ∧
        ((projectionResult sampleParams 2025).yearlyBreakdown.get
            ⟨k + 1, hk⟩).realPensionValue
          = ((projectionResult sampleParams 2025).yearlyBreakdown.get
              ⟨k + 1, hk⟩).pensionValue / (1 + sampleParams.inflationRate / 100) ^ (k + 1))) :=
  ⟨by norm_num [sampleParams],
    claim_C6_projector_per_year_algorithm sampleParams 2025 (by norm_num [sampleParams])⟩

/-- `sampleParams` with retirement age equal to current age: the allocation
sums to 100 but the age validation inside `calculateProjection` throws. -/
def equalAgeParams : PensionParams :=
  { sampleParams with retirementAge := 30 }

/-- `sampleParams` with cash allocation 5: allocations sum to 95. -/
def underAllocParams : PensionParams :=
  { sampleParams with cashAllocation := 5 }

/-- C7 counterexample: an input whose allocations sum to exactly 100
(70 + 20 + 10) for which the projector still refuses to produce a result,
because the retirement age does not exceed the current age.  This refutes
"for every input whose allocations sum to exactly 100 the projection is
computed" as stated. -/
theorem claim_C7_counterexample_valid_allocation_no_result :
    equalAgeParams.stocksAllocation + equalAgeParams.bondsAllocation +
        equalAgeParams.cashAllocation = 100 ∧
    ∀ r : ProjectionResult, pensionProjection equalAgeParams 2025 ≠ Except.ok r := by
  constructor
  · norm_num [equalAgeParams, sampleParams]
  · intro r
    rw [pensionProjection, if_neg (by norm_num [equalAgeParams, sampleParams]),
      calculateProjection, if_pos (by norm_num [equalAgeParams, sampleParams])]
    exact fun h => Except.noConfusion h

/-- C7 (amended): allocations not summing to exactly 100 are rejected with a
validation error and the projection never runs; allocations summing to
exactly 100 produce a computed projection, provided the age validation
(`retirementAge > currentAge`) also passes. -/
theorem claim_C7_allocation_validation (p : PensionParams) (cy : ℤ) :
    (p.stocksAllocation + p.bondsAllocation + p.cashAllocation ≠ 100 →
      pensionProjection p cy = Except.error "Asset allocation must total 100%") ∧
    (p.stocksAllocation + p.bondsAllocation + p.cashAllocation = 100 →
      p.currentAge < p.retirementAge →
      pensionProjection p cy = Except.ok (projectionResult p cy)) := by
  constructor
  · intro h
    rw [pensionProjection, if_pos h]
  · intro h hage
    rw [pensionProjection, if_neg (not_not_intro h), calculateProjection, if_neg (by omega)]

/-- Witness for C7: allocations 70 + 20 + 5 = 95 are rejected, and
allocations 70 + 20 + 10 = 100 (with a valid age range) are computed. -/
theorem claim_C7_allocation_validation_witness :
    pensionProjection underAllocParams 2025
        = Except.error "Asset allocation must total 100%" ∧
    pensionProjection sampleParams 2025
        = Except.ok (projectionResult sampleParams 2025) :=
  ⟨(claim_C7_allocation_validation underAllocParams 2025).1
      (by norm_num [underAllocParams, sampleParams]),
    (claim_C7_allocation_validation sampleParams 2025).2
      (by norm_num [sampleParams]) (by norm_num [sampleParams])⟩

/-- C8: when the allocation percentages sum to 100, the per-asset-class
values of every breakdown row sum exactly to that row's nominal balance. -/
theorem claim_C8_asset_split_sums_to_balance (p : PensionParams) (cy : ℤ)
    (halloc : p.stocksAllocation + p.bondsAllocation + p.cashAllocation = 100) :
    ∀ e ∈ (projectionResult p cy).yearlyBreakdown,
      e.stocks + e.bonds + e.cash = e.pensionValue := by
  intro e he
  simp only [projectionResult, List.mem_map] at he
  obtain ⟨k, hk, rfl⟩ := he
  simp only [entryAt]
  have hsplit : pensionValueAt p k * (p.stocksAllocation / 100)
      + pensionValueAt p k * (p.bondsAllocation / 100)
      + pensionValueAt p k * (p.cashAllocation / 100)
      = pensionValueAt p k *
        ((p.stocksAllocation + p.bondsAllocation + p.cashAllocation) / 100) := by
    ring
  rw [hsplit, halloc]
  norm_num

/-- Witness for C8 at `sampleParams`. -/
theorem claim_C8_asset_split_sums_to_balance_witness :
    sampleParams.stocksAllocation + sampleParams.bondsAllocation +
        sampleParams.cashAllocation = 100 ∧
    ∀ e ∈ (projectionResult sampleParams 2025).yearlyBreakdown,
      e.stocks + e.bonds + e.cash = e.pensionValue :=
  ⟨by norm_num [sampleParams],
    claim_C8_asset_split_sums_to_balance sampleParams 2025 (by norm_num [sampleParams])⟩

/-- Conservation invariant of the projection loop: at every iteration the
running balance equals own contributions (seeded with the starting pot) plus
employer contributions plus accumulated growth. -/
lemma pensionValueAt_conservation (p : PensionParams) (k : ℕ) :
    pensionValueAt p k
      = totalContributionsAt p k + totalEmployerContributionsAt p k + totalGrowthAt p k := by
  induction k with
  | zero =>
    simp [pensionValueAt, totalContributionsAt, totalEmployerContributionsAt, totalGrowthAt]
  | succ k ih =>
    simp only [pensionValueAt, totalContributionsAt, totalEmployerContributionsAt,
      totalGrowthAt, yearGrowthAt]
    rw [ih]
    ring

/-- The accumulated own contributions after `k` iterations. -/
lemma totalContributionsAt_eq (p : PensionParams) (k : ℕ) :
    totalContributionsAt p k = p.currentPension + (k : ℚ) * annualContribution p := by
  induction k with
  | zero => simp [totalContributionsAt]
  | succ k ih =>
    simp only [totalContributionsAt]
    rw [ih]
    push_cast
    ring

/-- C10: the final nominal pension value equals `totalContributions +
totalEmployerContributions + totalInvestmentGrowth` exactly, and the
reported `totalContributions` includes the starting pot: it equals
`currentPension + yearsToRetirement * annualContribution`. -/
theorem claim_C10_conservation_of_final_value (p : PensionParams) (cy : ℤ)
    (h : p.currentAge < p.retirementAge) :
    (projectionResult p cy).finalPensionNominal
      = (projectionResult p cy).totalContributions
        + (projectionResult p cy).totalEmployerContributions
        + (projectionResult p cy).totalInvestmentGrowth ∧
    (projectionResult p cy).totalContributions
      = p.currentPension
        + (((p.retirementAge - p.currentAge).toNat : ℕ) : ℚ) * annualContribution p := by
  constructor
  · exact pensionValueAt_conservation p _
  · exact totalContributionsAt_eq p _

/-- Witness for C10 at `sampleParams`. -/
theorem claim_C10_conservation_of_final_value_witness :
    sampleParams.currentAge < sampleParams.retirementAge ∧
    ((projectionResult sampleParams 2025).finalPensionNominal
        = (projectionResult sampleParams 2025).totalContributions
          + (projectionResult sampleParams 2025).totalEmployerContributions
          + (projectionResult sampleParams 2025).totalInvestmentGrowth ∧
      (projectionResult sampleParams 2025).totalContributions
        = sampleParams.currentPension
          + (((sampleParams.retirementAge - sampleParams.currentAge).toNat : ℕ) : ℚ)
            * annualContribution sampleParams) :=
  ⟨by norm_num [sampleParams],
    claim_C10_conservation_of_final_value sampleParams 2025 (by norm_num [sampleParams])⟩

namespace PurchasingPower

/-- The fixed UK RPI table (`ukInflationData`), 1980..2024, percent per year. -/
def ukInflationData : ℕ → Option ℚ
  | 1980 => some 18.0 | 1981 => some 11.9 | 1982 => some 8.6 | 1983 => some 4.6
  | 1984 => some 5.0 | 1985 => some 6.1 | 1986 => some 3.4 | 1987 => some 4.2
  | 1988 => some 4.9 | 1989 => some 7.8 | 1990 => some 9.5 | 1991 => some 5.9
  | 1992 => some 3.7 | 1993 => some 1.6 | 1994 => some 2.4 | 1995 => some 3.5
  | 1996 => some 2.4 | 1997 => some 3.1 | 1998 => some 3.4 | 1999 => some 1.5
  | 2000 => some 3.0 | 2001 => some 1.8 | 2002 => some 1.7 | 2003 => some 2.9
  | 2004 => some 3.0 | 2005 => some 2.8 | 2006 => some 3.2 | 2007 => some 4.3
  | 2008 => some 4.0 | 2009 => some (-0.5) | 2010 => some 4.6 | 2011 => some 5.2
  | 2012 => some 3.2 | 2013 => some 3.0 | 2014 => some 2.4 | 2015 => some 1.0
  | 2016 => some 1.8 | 2017 => some 3.6 | 2018 => some 3.3 | 2019 => some 2.6
  | 2020 => some 1.5 | 2021 => some 4.1 | 2022 => some 9.0 | 2023 => some 6.7
  | 2024 => some 3.2
  | _ => none

/-- `earliestYear = Math.min(...Object.keys(ukInflationData))`, i.e. 1980. -/
def earliestYear : ℕ := 1980

/-- `ukInflationData[year] || 2.0`: the fallback 2.0 is used when the year is
missing from the table (and, per JS falsiness, were a table value exactly 0,
which none is). -/
def rateFor (year : ℕ) : ℚ :=
  match ukInflationData year with
  | some r => if r = 0 then 2 else r
  | none => 2

/-- A row of the purchasing-power `yearlyBreakdown`. -/
structure BreakdownRow where
  year : ℕ
  amount : ℚ
  inflationRate : ℚ

/-- The `for (year = validStartYear; year <= validEndYear; year++)` loop,
by recursion on the number of remaining year boundaries
`n = validEndYear - year`: each iteration pushes the current row, and
multiplies the running amount by `(1 + rate/100)` except at the last year. -/
def ppWalk : ℕ → ℕ → ℚ → List BreakdownRow
  | 0, year, amount => [⟨year, amount, rateFor year⟩]
  | n + 1, year, amount =>
    ⟨year, amount, rateFor year⟩ ::
      ppWalk n (year + 1) (amount * (1 + rateFor year / 100))

/-- The running amount at the end of the walk (the `amount` of the last
pushed row). -/
def ppFinal : ℕ → ℕ → ℚ → ℚ
  | 0, _, amount => amount
  | n + 1, year, amount => ppFinal n (year + 1) (amount * (1 + rateFor year / 100))

/-- The record passed to `setResults` (its `averageInflation` field lives in
`ℝ` and is defined separately as `averageInflation`). -/
structure PurchasingPowerResult where
  originalAmount : ℚ
  adjustedAmount : ℚ
  percentageChange : ℚ
  inflationFactor : ℚ
  yearlyBreakdown : List BreakdownRow

/-- `calculatePurchasingPower(amount, startYear, endYear)` with the ambient
`currentYear` (`new Date().getFullYear()`) passed explicitly: clamps the year
range, walks it, and derives the adjusted amount (the last row's amount,
here `ppFinal`) and the percentage change. -/
def calculatePurchasingPower (currentYear : ℕ) (amount : ℚ) (startYear endYear : ℕ) :
    PurchasingPowerResult :=
  let validStartYear := max earliestYear (min startYear endYear)
  let validEndYear := min currentYear (max endYear validStartYear)
  let adjustedAmount := ppFinal (validEndYear - validStartYear) validStartYear amount
  { originalAmount := amount
    adjustedAmount := adjustedAmount
    percentageChange := (adjustedAmount - amount) / amount * 100
    inflationFactor := adjustedAmount / amount
    yearlyBreakdown := ppWalk (validEndYear - validStartYear) validStartYear amount }

/-- The `averageInflation` field: `(adjusted/amount)^(1/yearDiff) - 1` when
`yearDiff > 0`, else 0 (the source's explicit guard against dividing by
zero). -/
noncomputable def averageInflation (currentYear : ℕ) (amount : ℚ) (startYear endYear : ℕ) :
    ℝ :=
  let validStartYear := max earliestYear (min startYear endYear)
  let validEndYear := min currentYear (max endYear validStartYear)
  let adjustedAmount := ppFinal (validEndYear - validStartYear) validStartYear amount
  let yearDiff := validEndYear - validStartYear
  if 0 < yearDiff then
    ((adjustedAmount : ℝ) / (amount : ℝ)) ^ ((1 : ℝ) / (yearDiff : ℝ)) - 1
  else 0

/-- The walk multiplies the amount across every year boundary except the
last: its final amount is the product of the `(1 + rate/100)` factors. -/
lemma ppFinal_eq_prod (n : ℕ) :
    ∀ (y : ℕ) (a : ℚ),
      ppFinal n y a = a * ∏ i ∈ Finset.range n, (1 + rateFor (y + i) / 100) := by
  induction n with
  | zero => intro y a; simp [ppFinal]
  | succ n ih =>
    intro y a
    rw [ppFinal, ih]
    rw [Finset.prod_range_succ']
    have hshift : ∀ i : ℕ, y + 1 + i = y + (i + 1) := by omega
    simp only [hshift, Nat.add_zero]
    ring

/-- The walk produces one row per year of the inclusive range. -/
lemma ppWalk_length (n : ℕ) : ∀ (y : ℕ) (a : ℚ), (ppWalk n y a).length = n + 1 := by
  induction n with
  | zero => intro y a; simp [ppWalk]
  | succ n ih => intro y a; simp [ppWalk, ih]

/-- The last row of the walk carries the final running amount. -/
lemma ppWalk_getLast_amount (n : ℕ) :
    ∀ (y : ℕ) (a : ℚ),
      ((ppWalk n y a).getLast?).map (fun row => row.amount) = some (ppFinal n y a) := by
  induction n with
  | zero => intro y a; simp [ppWalk, ppFinal]
  | succ n ih =>
    intro y a
    have step := ih (y + 1) (a * (1 + rateFor y / 100))
    rw [ppWalk, ppFinal]
    cases hn : ppWalk n (y + 1) (a * (1 + rateFor y / 100)) with
    | nil =>
      exfalso
      have hlen := ppWalk_length n (y + 1) (a * (1 + rateFor y / 100))
      rw [hn] at hlen
      simp at hlen
    | cons b t =>
      rw [hn] at step
      rw [List.getLast?_cons_cons]
      exact step

end PurchasingPower

open PurchasingPower

/-- C9: the historical value adjuster walks the inclusive clamped year range
(one breakdown row per year), multiplies the running amount by
`(1 + rate(year)/100)` at every year boundary except the last (so the
adjusted amount is the product form below, and is the amount carried by the
last breakdown row), falls back to the rate 2.0 for any year missing
from the table, and is the identity (adjusted amount = original amount,
percentage change 0, average annual inflation 0) when the start year equals
the end year. -/
theorem claim_C9_purchasing_power_walk (cy : ℕ) (amount : ℚ) (startYear endYear : ℕ)
    (h1 : earliestYear ≤ startYear) (h2 : startYear ≤ endYear)
    (h3 : endYear ≤ 2024) (h4 : endYear ≤ cy) :
    (calculatePurchasingPower cy amount startYear endYear).yearlyBreakdown.length
        = endYear - startYear + 1 ∧
    (calculatePurchasingPower cy amount startYear endYear).adjustedAmount
        = amount * ∏ i ∈ Finset.range (endYear - startYear),
            (1 + rateFor (startYear + i) / 100) ∧
    ((calculatePurchasingPower cy amount startYear endYear).yearlyBreakdown.getLast?).map
          (fun row => row.amount)
        = some ((calculatePurchasingPower cy amount startYear endYear).adjustedAmount) ∧
    (∀ yr : ℕ, ukInflationData yr = none → rateFor yr = 2) ∧
    (startYear = endYear →
      (calculatePurchasingPower cy amount startYear endYear).adjustedAmount = amount ∧
      (calculatePurchasingPower cy amount startYear endYear).percentageChange = 0 ∧
      averageInflation cy amount startYear endYear = 0) := by
  have hvs : max earliestYear (min startYear endYear) = startYear := by
    rw [min_eq_left h2, max_eq_right h1]
  have hve : min cy (max endYear startYear) = endYear := by
    rw [max_eq_left h2, min_eq_right h4]
  simp only [calculatePurchasingPower, hvs, hve]
  refine ⟨ppWalk_length _ _ _, ppFinal_eq_prod _ _ _, ppWalk_getLast_amount _ _ _, ?_, ?_⟩
  · intro yr h
    simp [rateFor, h]
  · intro hse
    have hz : endYear - startYear = 0 := by omega
    rw [hz]
    refine ⟨rfl, ?_, ?_⟩
    · show (ppFinal 0 startYear amount - amount) / amount * 100 = 0
      rw [ppFinal]
      simp
    · simp only [averageInflation, hvs, hve, hz]
      norm_num

/-- Witness for C9 at `cy = 2026`, `amount = 1000`,
`startYear = endYear = 2000`. -/
theorem claim_C9_purchasing_power_walk_witness :
    earliestYear ≤ 2000 ∧ 2000 ≤ 2000 ∧ 2000 ≤ 2024 ∧ 2000 ≤ 2026 ∧
    ((calculatePurchasingPower 2026 1000 2000 2000).yearlyBreakdown.length
        = 2000 - 2000 + 1 ∧
      (calculatePurchasingPower 2026 1000 2000 2000).adjustedAmount
        = 1000 * ∏ i ∈ Finset.range (2000 - 2000), (1 + rateFor (2000 + i) / 100) ∧
      ((calculatePurchasingPower 2026 1000 2000 2000).yearlyBreakdown.getLast?).map
            (fun row => row.amount)
          = some ((calculatePurchasingPower 2026 1000 2000 2000).adjustedAmount) ∧
      (∀ yr : ℕ, ukInflationData yr = none → rateFor yr = 2) ∧
      (2000 = 2000 →
        (calculatePurchasingPower 2026 1000 2000 2000).adjustedAmount = 1000 ∧
        (calculatePurchasingPower 2026 1000 2000 2000).percentageChange = 0 ∧
        averageInflation 2026 1000 2000 2000 = 0)) :=
  ⟨by norm_num [earliestYear], by norm_num, by norm_num, by norm_num,
    claim_C9_purchasing_power_walk 2026 1000 2000 2000 (by norm_num [earliestYear])
      (by norm_num) (by norm_num) (by norm_num)⟩
